import Mathlib

/-!
Shallow embedding of the AMM pool client library (Pool.ts, SideStaking.ts,
NftFactory) over an explicit chain-oracle environment.  Contract reads,
gas estimation and transaction submission are modelled as fields of an
`Env` record; every operation is a pure function of the environment that
returns its result together with the list of estimation/submission
effects it performed, so that claims about control flow (bound checks
before submission, estimate-only short-circuits, swallowed errors,
client-side role checks) become decidable statements.
-/

deriving instance DecidableEq for Except

namespace OceanPools

/-- Transaction receipt: the model keeps only the decoded event payloads
(event name paired with the first return value), which is all the client
code reads from a receipt. -/
structure TransactionReceipt where
  events : List (String × String)
deriving DecidableEq

/-- Observable network effects of a mutating operation, in order.
Contract reads are not tracked; only gas estimation and submission, which
are what the claims quantify over. -/
inductive Effect
  | estimated (method : String) (gas : Nat)
  | submitted (method : String) (gas : Nat) (gasPrice : Nat)
deriving DecidableEq

/-- Raw integer fixed-point values returned by the on-chain swap
calculators (`getAmountOutExactIn` / `getAmountInExactOut` contract
calls): the gross amount plus the four fee components. -/
structure RawSwapValues where
  tokenAmount : Nat
  lpFeeAmount : Nat
  oceanFeeAmount : Nat
  publishMarketSwapFeeAmount : Nat
  consumeMarketSwapFeeAmount : Nat
deriving DecidableEq

/-- Human-readable swap quote returned by the client quote functions
(`PoolPriceAndFees` in the source). -/
structure PoolPriceAndFees where
  tokenAmount : Rat
  liquidityProviderSwapFeeAmount : Rat
  oceanFeeAmount : Rat
  publishMarketSwapFeeAmount : Rat
  consumeMarketSwapFeeAmount : Rat
deriving DecidableEq

/-- Errors thrown by the client code.  The source throws `new Error(msg)`
with distinguishing messages; each constructor stands for one such throw
site (or, for `nullDeref`, the TypeError raised by calling `toString` on
a null value). -/
inductive PoolError
  | amountExceedsBound (bound : Rat)
  | nullDeref
  | notMarketFeeCollector
  | notFactoryOwner
  | templateIndexMissing
  | templateIndexZero
  | templateNotActive
  | templateZeroAddress
  | submitReverted (reason : String)
deriving DecidableEq

/-- Chain-oracle environment: one field per external interaction the
embedded functions perform.  Reads that may fail return
`Except String _` with the failure message; reads whose failure path no
embedded function distinguishes are total.  `send` abstracts the method
arguments to the integer-valued ones (address-typed arguments do not
influence any claim). -/
structure Env where
  decimalsOf : String → Nat
  maxInRatio : Rat
  maxOutRatio : Rat
  balanceOf : String → String → Except String Nat
  getBalance : String → String → Except String Nat
  numTokens : String → Except String Nat
  marketFeeCollector : String → Except String String
  baseTokenAddr : String → String
  calcOutGivenIn : String → String → String → Int → Int → Except String RawSwapValues
  calcInGivenOut : String → String → String → Int → Int → Except String RawSwapValues
  estimateGasRaw : String → Except String Nat
  defaultGas : Nat
  fairGasPrice : Nat
  send : String → List Int → Nat → Nat → Except String TransactionReceipt
  nftOwner : String
  nftTemplateCount : Nat
  nftTemplateActive : Nat → Bool
  ssBaseTokenBalance : String → String → Except String Nat
  ssDatatokenBalance : String → String → Except String Nat

/-- Rounding toward zero on rationals, as the spec requires for `toUnits`. -/
def truncTowardZero (x : Rat) : Int :=
  if 0 ≤ x then Rat.floor x else Rat.ceil x

/-- Modelled from the spec: `SmartContract.unitsToAmount` (the
UnitConverter's `toAmount`) is not under src/.  Per the spec, the integer
fixed-point amount is scaled down by 10^decimals, where decimals is the
explicit override when supplied, else the token's queried precision. -/
def unitsToAmount (env : Env) (token : String) (units : Nat)
    (tokenDecimals : Option Nat) : Rat :=
  (units : Rat) / (10 : Rat) ^ (tokenDecimals.getD (env.decimalsOf token))

/-- Modelled from the spec: `SmartContract.amountToUnits` (the
UnitConverter's `toUnits`) is not under src/.  Per the spec, the human
amount is scaled up by 10^decimals and rounded toward zero. -/
def amountToUnits (env : Env) (token : String) (amount : Rat)
    (tokenDecimals : Option Nat) : Int :=
  truncTowardZero (amount * (10 : Rat) ^ (tokenDecimals.getD (env.decimalsOf token)))

/-- Modelled from the spec: web3's `toWei`, used by the source for
18-decimal values, scales by 10^18. -/
def toWei (amount : Rat) : Int :=
  truncTowardZero (amount * (10 : Rat) ^ (18 : Nat))

/-- Modelled from the spec: web3's `fromWei` scales down by 10^18. -/
def fromWei (units : Nat) : Rat :=
  (units : Rat) / (10 : Rat) ^ (18 : Nat)

/-- Largest unsigned 256-bit integer (`MAX_UINT_256` in src/utils). -/
def MAX_UINT_256 : Int := 2 ^ 256 - 1

/-- Zero address constant (`ZERO_ADDRESS` in src/utils). -/
def ZERO_ADDRESS : String := "0x0000000000000000000000000000000000000000"

/-- Modelled from the spec: `calculateEstimatedGas` (src/utils) is not
under src/.  Per the spec's TransactionPipeline, estimation failure falls
back to a configured default estimate rather than aborting, so the
helper is total. -/
def calculateEstimatedGas (env : Env) (method : String) : Nat :=
  match env.estimateGasRaw method with
  | .ok g => g
  | .error _ => env.defaultGas

/-- Modelled from the spec: `calcMaxExactIn` (src/utils) is not under
src/.  Per the spec's BoundsCalculator, the exact-in bound is the current
reserve times a fixed conservative ratio. -/
def calcMaxExactIn (env : Env) (reserve : Rat) : Rat :=
  reserve * env.maxInRatio

/-- Modelled from the spec: `calcMaxExactOut` (src/utils) is not under
src/.  Per the spec's BoundsCalculator, the exact-out bound is the
current reserve times its own fixed ratio. -/
def calcMaxExactOut (env : Env) (reserve : Rat) : Rat :=
  reserve * env.maxOutRatio

/-- Result of a mutating call: either the gas estimate (when the
estimate-only flag short-circuits) or a receipt, where `none` models the
JavaScript `null` returned when the send failed and was swallowed. -/
inductive TxOutcome
  | gasEstimate (g : Nat)
  | receipt (r : Option TransactionReceipt)
deriving DecidableEq

namespace Pool

/-- Pool.sharesBalance: reads `balanceOf(account)` and converts from wei;
a failed read is caught, logged, and the initial `null` is returned. -/
def sharesBalance (env : Env) (account poolAddress : String) :
    Except PoolError (Option Rat) :=
  match env.balanceOf poolAddress account with
  | .ok balance => .ok (some (fromWei balance))
  | .error _ => .ok none

/-- Pool.getNumTokens: reads the bound-token count; a failed read is
caught, logged, and the initial `null` is returned. -/
def getNumTokens (env : Env) (poolAddress : String) :
    Except PoolError (Option Nat) :=
  match env.numTokens poolAddress with
  | .ok tokens => .ok (some tokens)
  | .error _ => .ok none

/-- Pool.getReserve: reads `getBalance(token)` and converts via
`unitsToAmount`.  A failed read is caught and logged, but `amount` is
then still `null` and the trailing `amount.toString()` raises a
TypeError, modelled as `PoolError.nullDeref`. -/
def getReserve (env : Env) (poolAddress token : String)
    (tokenDecimals : Option Nat) : Except PoolError Rat :=
  match env.getBalance poolAddress token with
  | .ok balance => .ok (unitsToAmount env token balance tokenDecimals)
  | .error _ => .error .nullDeref

/-- Pool.getMarketFeeCollector: reads `_publishMarketCollector()`; a
failed read is caught and the initial `null` is returned. -/
def getMarketFeeCollector (env : Env) (poolAddress : String) : Option String :=
  match env.marketFeeCollector poolAddress with
  | .ok address => some address
  | .error _ => none

/-- Pool.getMaxSwapExactOut: reads the reserve (no decimals override) and
applies `calcMaxExactOut`. -/
def getMaxSwapExactOut (env : Env) (poolAddress tokenAddress : String) :
    Except PoolError Rat :=
  (getReserve env poolAddress tokenAddress none).map (calcMaxExactOut env)

/-- Pool.getMaxSwapExactIn: reads the reserve (no decimals override) and
applies `calcMaxExactIn`. -/
def getMaxSwapExactIn (env : Env) (poolAddress tokenAddress : String) :
    Except PoolError Rat :=
  (getReserve env poolAddress tokenAddress none).map (calcMaxExactIn env)

/-- Pool.getMaxAddLiquidity: reads the reserve and applies
`calcMaxExactIn`, exactly like `getMaxSwapExactIn`. -/
def getMaxAddLiquidity (env : Env) (poolAddress tokenAddress : String) :
    Except PoolError Rat :=
  (getReserve env poolAddress tokenAddress none).map (calcMaxExactIn env)

/-- Pool.getMaxRemoveLiquidity: reads the reserve and applies
`calcMaxExactIn`, exactly like `getMaxSwapExactIn`. -/
def getMaxRemoveLiquidity (env : Env) (poolAddress tokenAddress : String) :
    Except PoolError Rat :=
  (getReserve env poolAddress tokenAddress none).map (calcMaxExactIn env)

/-- Pool.setSwapFee: estimates, optionally returns the estimate, else
sends with `gas: estGas` (note: no `+ 1` margin in the source for this
method) and a freshly read fair gas price; a failed send is caught,
logged, and the initial `null` receipt is returned. -/
def setSwapFee (env : Env) (_account _poolAddress : String) (fee : Rat)
    (estimateGas : Bool) : Except PoolError TxOutcome × List Effect :=
  let estGas := calculateEstimatedGas env "setSwapFee"
  if estimateGas then
    (.ok (.gasEstimate estGas), [.estimated "setSwapFee" estGas])
  else
    match env.send "setSwapFee" [toWei fee] estGas env.fairGasPrice with
    | .ok r =>
        (.ok (.receipt (some r)),
         [.estimated "setSwapFee" estGas,
          .submitted "setSwapFee" estGas env.fairGasPrice])
    | .error _ =>
        (.ok (.receipt none),
         [.estimated "setSwapFee" estGas,
          .submitted "setSwapFee" estGas env.fairGasPrice])

/-- Pool.collectOPC: estimates, optionally returns the estimate, else
sends with `gas: estGas + 1` and a fresh fair gas price; a failed send is
caught, logged, and the initial `null` receipt is returned. -/
def collectOPC (env : Env) (_address _poolAddress : String)
    (estimateGas : Bool) : Except PoolError TxOutcome × List Effect :=
  let estGas := calculateEstimatedGas env "collectOPC"
  if estimateGas then
    (.ok (.gasEstimate estGas), [.estimated "collectOPC" estGas])
  else
    match env.send "collectOPC" [] (estGas + 1) env.fairGasPrice with
    | .ok r =>
        (.ok (.receipt (some r)),
         [.estimated "collectOPC" estGas,
          .submitted "collectOPC" (estGas + 1) env.fairGasPrice])
    | .error _ =>
        (.ok (.receipt none),
         [.estimated "collectOPC" estGas,
          .submitted "collectOPC" (estGas + 1) env.fairGasPrice])

/-- Pool.collectMarketFee: first re-validates the publish-market fee
collector role client-side (`getMarketFeeCollector !== address` throws
before any estimation); then estimates, optionally returns the estimate,
else sends with `estGas + 1` and a fresh fair gas price; a failed send is
caught and the initial `null` receipt is returned. -/
def collectMarketFee (env : Env) (address poolAddress : String)
    (estimateGas : Bool) : Except PoolError TxOutcome × List Effect :=
  if getMarketFeeCollector env poolAddress ≠ some address then
    (.error .notMarketFeeCollector, [])
  else
    let estGas := calculateEstimatedGas env "collectMarketFee"
    if estimateGas then
      (.ok (.gasEstimate estGas), [.estimated "collectMarketFee" estGas])
    else
      match env.send "collectMarketFee" [] (estGas + 1) env.fairGasPrice with
      | .ok r =>
          (.ok (.receipt (some r)),
           [.estimated "collectMarketFee" estGas,
            .submitted "collectMarketFee" (estGas + 1) env.fairGasPrice])
      | .error _ =>
          (.ok (.receipt none),
           [.estimated "collectMarketFee" estGas,
            .submitted "collectMarketFee" (estGas + 1) env.fairGasPrice])

/-- Pool.updatePublishMarketFee: first re-validates the publish-market
fee collector role client-side (throws before any estimation); then
estimates, optionally returns the estimate, else sends with `estGas + 1`
and a fresh fair gas price; a failed send is caught and the initial
`null` receipt is returned. -/
def updatePublishMarketFee (env : Env)
    (address poolAddress _newPublishMarketAddress : String)
    (newPublishMarketSwapFee : Rat) (estimateGas : Bool) :
    Except PoolError TxOutcome × List Effect :=
  if getMarketFeeCollector env poolAddress ≠ some address then
    (.error .notMarketFeeCollector, [])
  else
    let estGas := calculateEstimatedGas env "updatePublishMarketFee"
    if estimateGas then
      (.ok (.gasEstimate estGas), [.estimated "updatePublishMarketFee" estGas])
    else
      match env.send "updatePublishMarketFee" [toWei newPublishMarketSwapFee]
          (estGas + 1) env.fairGasPrice with
      | .ok r =>
          (.ok (.receipt (some r)),
           [.estimated "updatePublishMarketFee" estGas,
            .submitted "updatePublishMarketFee" (estGas + 1) env.fairGasPrice])
      | .error _ =>
          (.ok (.receipt none),
           [.estimated "updatePublishMarketFee" estGas,
            .submitted "updatePublishMarketFee" (estGas + 1) env.fairGasPrice])

end Pool

/-- TokenInOutMarket argument object of the swap entry points. -/
structure TokenInOutMarket where
  tokenIn : String
  tokenOut : String
  marketFeeAddress : String
  tokenInDecimals : Option Nat := none
  tokenOutDecimals : Option Nat := none

/-- AmountsInMaxFee argument object of `swapExactAmountIn`. -/
structure AmountsInMaxFee where
  tokenAmountIn : Rat
  minAmountOut : Rat
  swapMarketFee : Rat
  maxPrice : Option Rat := none

namespace Pool

/-- Pool.swapExactAmountIn: computes `getMaxSwapExactIn` and throws
`tokenAmountIn is greater than <bound>` when the requested amount
strictly exceeds it (before any unit conversion, estimation or
submission); otherwise converts the amounts to integer units, estimates,
optionally returns the estimate, else sends with `estGas + 1` and a
fresh fair gas price; a failed send is caught, logged, and the initial
`null` receipt is returned. -/
def swapExactAmountIn (env : Env) (_address poolAddress : String)
    (tokenInOutMarket : TokenInOutMarket) (amountsInOutMaxFee : AmountsInMaxFee)
    (estimateGas : Bool) : Except PoolError TxOutcome × List Effect :=
  match getMaxSwapExactIn env poolAddress tokenInOutMarket.tokenIn with
  | .error e => (.error e, [])
  | .ok maxSwap =>
    if maxSwap < amountsInOutMaxFee.tokenAmountIn then
      (.error (.amountExceedsBound maxSwap), [])
    else
      let tokenAmountIn := amountToUnits env tokenInOutMarket.tokenIn
        amountsInOutMaxFee.tokenAmountIn tokenInOutMarket.tokenInDecimals
      let minAmountOut := amountToUnits env tokenInOutMarket.tokenOut
        amountsInOutMaxFee.minAmountOut tokenInOutMarket.tokenOutDecimals
      let maxPrice := match amountsInOutMaxFee.maxPrice with
        | some p => amountToUnits env (env.baseTokenAddr poolAddress) p none
        | none => MAX_UINT_256
      let args := [tokenAmountIn, minAmountOut, maxPrice,
        toWei amountsInOutMaxFee.swapMarketFee]
      let estGas := calculateEstimatedGas env "swapExactAmountIn"
      if estimateGas then
        (.ok (.gasEstimate estGas), [.estimated "swapExactAmountIn" estGas])
      else
        match env.send "swapExactAmountIn" args (estGas + 1) env.fairGasPrice with
        | .ok r =>
            (.ok (.receipt (some r)),
             [.estimated "swapExactAmountIn" estGas,
              .submitted "swapExactAmountIn" (estGas + 1) env.fairGasPrice])
        | .error _ =>
            (.ok (.receipt none),
             [.estimated "swapExactAmountIn" estGas,
              .submitted "swapExactAmountIn" (estGas + 1) env.fairGasPrice])

/-- Pool.getAmountOutExactIn: checks the requested `tokenAmountIn`
against `getMaxSwapExactIn` (throwing when strictly greater, before any
conversion or contract call), converts the input with the input-side
decimals, invokes the on-chain calculator, and converts the results
back: the gross `tokenAmountOut` with the output-side token/decimals and
the four fee components with the input-side token/decimals.  A failed
calculator call is caught, logged, and the initial `null` is returned. -/
def getAmountOutExactIn (env : Env) (poolAddress tokenIn tokenOut : String)
    (tokenAmountIn swapMarketFee : Rat)
    (tokenInDecimals tokenOutDecimals : Option Nat) :
    Except PoolError (Option PoolPriceAndFees) :=
  match getMaxSwapExactIn env poolAddress tokenIn with
  | .error e => .error e
  | .ok maxSwap =>
    if maxSwap < tokenAmountIn then .error (.amountExceedsBound maxSwap)
    else
      let amountInFormatted := amountToUnits env tokenIn tokenAmountIn tokenInDecimals
      match env.calcOutGivenIn poolAddress tokenIn tokenOut amountInFormatted
          (toWei swapMarketFee) with
      | .error _ => .ok none
      | .ok amountOut => .ok (some
          { tokenAmount :=
              unitsToAmount env tokenOut amountOut.tokenAmount tokenOutDecimals
            liquidityProviderSwapFeeAmount :=
              unitsToAmount env tokenIn amountOut.lpFeeAmount tokenInDecimals
            oceanFeeAmount :=
              unitsToAmount env tokenIn amountOut.oceanFeeAmount tokenInDecimals
            publishMarketSwapFeeAmount :=
              unitsToAmount env tokenIn amountOut.publishMarketSwapFeeAmount
                tokenInDecimals
            consumeMarketSwapFeeAmount :=
              unitsToAmount env tokenIn amountOut.consumeMarketSwapFeeAmount
                tokenInDecimals })

/-- Pool.getAmountInExactOut: checks the requested `tokenAmountOut`
against `getMaxSwapExactOut` (throwing when strictly greater), converts
the output with the output-side decimals, invokes the on-chain
calculator, and converts the results back.  NOTE (faithful to the
source, lines 956-961): the gross `tokenAmountIn`, although denominated
in the input token, is converted with the OUTPUT-side token and
decimals; the four fee components use the input side.  A failed
calculator call is caught, logged, and the initial `null` is returned. -/
def getAmountInExactOut (env : Env) (poolAddress tokenIn tokenOut : String)
    (tokenAmountOut swapMarketFee : Rat)
    (tokenInDecimals tokenOutDecimals : Option Nat) :
    Except PoolError (Option PoolPriceAndFees) :=
  match getMaxSwapExactOut env poolAddress tokenOut with
  | .error e => .error e
  | .ok maxSwap =>
    if maxSwap < tokenAmountOut then .error (.amountExceedsBound maxSwap)
    else
      let amountOutFormatted := amountToUnits env tokenOut tokenAmountOut tokenOutDecimals
      match env.calcInGivenOut poolAddress tokenIn tokenOut amountOutFormatted
          (toWei swapMarketFee) with
      | .error _ => .ok none
      | .ok amountIn => .ok (some
          { tokenAmount :=
              unitsToAmount env tokenOut amountIn.tokenAmount tokenOutDecimals
            liquidityProviderSwapFeeAmount :=
              unitsToAmount env tokenIn amountIn.lpFeeAmount tokenInDecimals
            oceanFeeAmount :=
              unitsToAmount env tokenIn amountIn.oceanFeeAmount tokenInDecimals
            publishMarketSwapFeeAmount :=
              unitsToAmount env tokenIn amountIn.publishMarketSwapFeeAmount
                tokenInDecimals
            consumeMarketSwapFeeAmount :=
              unitsToAmount env tokenIn amountIn.consumeMarketSwapFeeAmount
                tokenInDecimals })

end Pool

/-- NftCreateData argument object of the factory entry points. -/
structure NftCreateData where
  name : String
  symbol : String
  templateIndex : Nat
  tokenURI : String
  transferable : Bool
  owner : String

namespace NftFactory

/-- NftFactory.GASLIMIT_DEFAULT, the configured fallback gas limit. -/
def GASLIMIT_DEFAULT : Nat := 1000000

/-- NftFactory.estGasCreateNFT: raw `estimateGas` on
`deployERC721Contract`; a thrown estimation is caught and the
`GASLIMIT_DEFAULT` fallback is returned instead. -/
def estGasCreateNFT (env : Env) : Nat :=
  match env.estimateGasRaw "deployERC721Contract" with
  | .ok g => g
  | .error _ => GASLIMIT_DEFAULT

/-- NftFactory.estGasAddNFTTemplate: raw `estimateGas` on
`add721TokenTemplate` with the same `GASLIMIT_DEFAULT` fallback. -/
def estGasAddNFTTemplate (env : Env) : Nat :=
  match env.estimateGasRaw "add721TokenTemplate" with
  | .ok g => g
  | .error _ => GASLIMIT_DEFAULT

/-- NftFactory.createNFT: a falsy (zero) template index is replaced by 1;
the index is validated against the template count, zero, and the
template's active flag (name/symbol defaulting via `generateDtName` only
affects string arguments and is not observable here); then the gas is
estimated through the falling-back `estGasCreateNFT` and the deployment
is sent with `estGas + 1` and a fresh fair gas price.  The send is NOT
wrapped in try/catch, so a rejected submission propagates; only the
event-payload extraction is caught, returning `null` when the
`NFTCreated` event is missing. -/
def createNFT (env : Env) (_address : String) (nftData : NftCreateData) :
    Except PoolError (Option String) × List Effect :=
  let idx := if nftData.templateIndex = 0 then 1 else nftData.templateIndex
  if env.nftTemplateCount < idx then (.error .templateIndexMissing, [])
  else if idx = 0 then (.error .templateIndexZero, [])
  else if env.nftTemplateActive idx = false then (.error .templateNotActive, [])
  else
    let estGas := estGasCreateNFT env
    let trace := [Effect.estimated "deployERC721Contract" estGas,
      Effect.submitted "deployERC721Contract" (estGas + 1) env.fairGasPrice]
    match env.send "deployERC721Contract" [] (estGas + 1) env.fairGasPrice with
    | .error reason => (.error (.submitReverted reason), trace)
    | .ok r =>
      match r.events.lookup "NFTCreated" with
      | some tokenAddress => (.ok (some tokenAddress), trace)
      | none => (.ok none, trace)

/-- NftFactory.addNFTTemplate: re-validates factory ownership
client-side (`getOwner() !== address` throws before any estimation),
rejects the zero address, then estimates with fallback and sends with
`estGas + 1` and a fresh fair gas price; the send is not wrapped in
try/catch, so a rejected submission propagates. -/
def addNFTTemplate (env : Env) (address templateAddress : String) :
    Except PoolError TransactionReceipt × List Effect :=
  if env.nftOwner ≠ address then (.error .notFactoryOwner, [])
  else if templateAddress = ZERO_ADDRESS then (.error .templateZeroAddress, [])
  else
    let estGas := estGasAddNFTTemplate env
    let trace := [Effect.estimated "add721TokenTemplate" estGas,
      Effect.submitted "add721TokenTemplate" (estGas + 1) env.fairGasPrice]
    match env.send "add721TokenTemplate" [] (estGas + 1) env.fairGasPrice with
    | .error reason => (.error (.submitReverted reason), trace)
    | .ok r => (.ok r, trace)

end NftFactory

namespace SideStaking

/-- SideStaking.getBasetokenBalance (src/src/contracts/pools/
SideStaking.ts): reads `getBaseTokenBalance` and returns the value
as-is — no `unitsToAmount` conversion, so the raw fixed-point integer
crosses the boundary.  A failed read propagates. -/
def getBasetokenBalance (env : Env) (ssAddress datatokenAddress : String) :
    Except String Rat :=
  (env.ssBaseTokenBalance ssAddress datatokenAddress).map (fun b => (b : Rat))

/-- SideStaking.getDatatokenBalance: reads `getDatatokenBalance` and
converts via `unitsToAmount` with the datatoken's decimals before
returning.  A failed read propagates. -/
def getDatatokenBalance (env : Env) (ssAddress datatokenAddress : String)
    (tokenDecimals : Option Nat) : Except String Rat :=
  (env.ssDatatokenBalance ssAddress datatokenAddress).map
    (fun b => unitsToAmount env datatokenAddress b tokenDecimals)

/-- SideStaking.getVesting: estimates via `calculateEstimatedGas`,
optionally returns the estimate and stops, else sends with `estGas + 1`
and a fresh fair gas price; the send is not wrapped in try/catch, so a
rejected submission propagates. -/
def getVesting (env : Env) (_account _ssAddress _datatokenAddress : String)
    (estimateGas : Bool) : Except PoolError TxOutcome × List Effect :=
  let estGas := calculateEstimatedGas env "getVesting"
  if estimateGas then
    (.ok (.gasEstimate estGas), [.estimated "getVesting" estGas])
  else
    let trace := [Effect.estimated "getVesting" estGas,
      Effect.submitted "getVesting" (estGas + 1) env.fairGasPrice]
    match env.send "getVesting" [] (estGas + 1) env.fairGasPrice with
    | .error reason => (.error (.submitReverted reason), trace)
    | .ok r => (.ok (.receipt (some r)), trace)

end SideStaking

/-- Concrete chain environment used to evaluate the theorems on explicit
inputs: every token has 0 decimals, the pool reserve reads as 1000 raw
units, the exact-in ratio is 1/2 and the exact-out ratio 1/3, gas
estimation returns 100, the fair gas price is 7, and sends succeed with
an `NFTCreated` event. -/
def baseEnv : Env where
  decimalsOf := fun _ => 0
  maxInRatio := 1 / 2
  maxOutRatio := 1 / 3
  balanceOf := fun _ _ => .ok 1000
  getBalance := fun _ _ => .ok 1000
  numTokens := fun _ => .ok 2
  marketFeeCollector := fun _ => .ok "COLLECTOR"
  baseTokenAddr := fun _ => "BT"
  calcOutGivenIn := fun _ _ _ _ _ => .ok ⟨50, 1, 1, 1, 1⟩
  calcInGivenOut := fun _ _ _ _ _ => .ok ⟨100, 0, 0, 0, 0⟩
  estimateGasRaw := fun _ => .ok 100
  defaultGas := 300
  fairGasPrice := 7
  send := fun _ _ _ _ => .ok ⟨[("NFTCreated", "0xNEW")]⟩
  nftOwner := "OWNER"
  nftTemplateCount := 3
  nftTemplateActive := fun _ => true
  ssBaseTokenBalance := fun _ _ => .ok 500
  ssDatatokenBalance := fun _ _ => .ok 500

/-- Concrete swap route used by the witnesses. -/
def marketW : TokenInOutMarket :=
  { tokenIn := "TKI", tokenOut := "TKO", marketFeeAddress := "MKT" }

/-- Amounts that exceed the derived bound of 500 in `baseEnv`. -/
def amountsOver : AmountsInMaxFee :=
  { tokenAmountIn := 501, minAmountOut := 1, swapMarketFee := 0 }

/-- Amounts that respect the derived bound of 500 in `baseEnv`. -/
def amountsOk : AmountsInMaxFee :=
  { tokenAmountIn := 1, minAmountOut := 1, swapMarketFee := 0 }

/-- Environment in which raw gas estimation always throws. -/
def envEstFail : Env :=
  { baseEnv with estimateGasRaw := fun _ => .error "cannot estimate" }

/-- Environment in which the chain rejects every submission. -/
def envRevert : Env :=
  { baseEnv with send := fun _ _ _ _ => .error "execution reverted" }

/-- Environment in which every contract read fails. -/
def envReadFail : Env :=
  { baseEnv with
      numTokens := fun _ => .error "read failed"
      balanceOf := fun _ _ => .error "read failed"
      getBalance := fun _ _ => .error "read failed" }

/-- Environment in which every token has 2 decimals, so a raw balance of
500 units denotes the human-readable amount 5. -/
def envDec2 : Env :=
  { baseEnv with decimalsOf := fun _ => 2 }

/-- C10: for the same reserve reading, `getMaxSwapExactIn`,
`getMaxAddLiquidity` and `getMaxRemoveLiquidity` return exactly the same
value — each applies `calcMaxExactIn` to the token's reserve in the
pool — and only `getMaxSwapExactOut` applies the distinct
`calcMaxExactOut` ratio. -/
theorem max_bounds_all_apply_calcMaxExactIn (env : Env)
    (poolAddress tokenAddress : String) :
    Pool.getMaxSwapExactIn env poolAddress tokenAddress =
      (Pool.getReserve env poolAddress tokenAddress none).map (calcMaxExactIn env) ∧
    Pool.getMaxAddLiquidity env poolAddress tokenAddress =
      Pool.getMaxSwapExactIn env poolAddress tokenAddress ∧
    Pool.getMaxRemoveLiquidity env poolAddress tokenAddress =
      Pool.getMaxSwapExactIn env poolAddress tokenAddress ∧
    Pool.getMaxSwapExactOut env poolAddress tokenAddress =
      (Pool.getReserve env poolAddress tokenAddress none).map (calcMaxExactOut env) :=
  ⟨rfl, rfl, rfl, rfl⟩

/-- C1: a `tokenAmountIn` strictly greater than the pool's
`getMaxSwapExactIn` bound makes `swapExactAmountIn` fail with the
bound-exceeded error carrying the computed bound, with an empty effect
trace (so the call never reaches gas estimation or submission), and
makes the `getAmountOutExactIn` quote fail with the same error before
invoking the on-chain calculator. -/
theorem swap_exceeding_bound_fails_fast (env : Env)
    (address poolAddress tokenOut : String) (m : TokenInOutMarket)
    (a : AmountsInMaxFee) (g : Bool) (swapMarketFee : Rat)
    (d1 d2 : Option Nat) (bound : Rat)
    (hb : Pool.getMaxSwapExactIn env poolAddress m.tokenIn = .ok bound)
    (hgt : bound < a.tokenAmountIn) :
    Pool.swapExactAmountIn env address poolAddress m a g =
      (.error (.amountExceedsBound bound), []) ∧
    Pool.getAmountOutExactIn env poolAddress m.tokenIn tokenOut a.tokenAmountIn
      swapMarketFee d1 d2 = .error (.amountExceedsBound bound) := by
  unfold Pool.swapExactAmountIn Pool.getAmountOutExactIn
  rw [hb]
  simp [hgt]

/-- Witness for `swap_exceeding_bound_fails_fast`: in `baseEnv` the
reserve is 1000 and the exact-in bound 500, so a requested 501 is
rejected before any effect. -/
theorem swap_exceeding_bound_fails_fast_witness :
    Pool.swapExactAmountIn baseEnv "A" "P" marketW amountsOver false =
      (.error (.amountExceedsBound 500), []) ∧
    Pool.getAmountOutExactIn baseEnv "P" marketW.tokenIn "TKO"
      amountsOver.tokenAmountIn 0 none none =
      .error (.amountExceedsBound 500) :=
  swap_exceeding_bound_fails_fast baseEnv "A" "P" "TKO" marketW amountsOver
    false 0 none none 500 (by norm_num [Pool.getMaxSwapExactIn, Pool.getReserve,
      baseEnv, unitsToAmount, calcMaxExactIn, marketW, Except.map])
    (by norm_num [amountsOver])

/-- C2 counterexample: the caller supplies the correct decimals for each
side (input token "TKI" has 0 decimals, output token "TKO" has 2), and
the exact-out calculator reports a gross `tokenAmountIn` of 100 raw
units — an amount denominated in the INPUT token, whose denominating
side conversion therefore yields 100.  But `getAmountInExactOut`
converts the gross with the output side's 2 decimals and returns 1, so
the gross component of the exact-out quote is not converted with the
decimal precision of the token in which it is denominated. -/
theorem quote_gross_wrong_side_cx :
    Pool.getAmountInExactOut baseEnv "P" "TKI" "TKO" 1 0 (some 0) (some 2) =
      .ok (some { tokenAmount := 1, liquidityProviderSwapFeeAmount := 0,
                  oceanFeeAmount := 0, publishMarketSwapFeeAmount := 0,
                  consumeMarketSwapFeeAmount := 0 }) ∧
    unitsToAmount baseEnv "TKI" 100 (some 0) = 100 ∧ (1 : Rat) ≠ 100 := by
  refine ⟨?_, ?_, by norm_num⟩
  · norm_num [Pool.getAmountInExactOut, Pool.getMaxSwapExactOut, Pool.getReserve,
      baseEnv, unitsToAmount, amountToUnits, truncTowardZero,
      calcMaxExactOut, toWei, Except.map]
  · norm_num [unitsToAmount, baseEnv]

/-- C2 amended: in both quote functions the four fee components are
converted back with the input-side token and decimals, and the gross
amount is converted with the output-side token and decimals — which for
the exact-in quote is the token in which the gross is denominated, but
for the exact-out quote is not (its gross is denominated in the input
token yet still converted output-side). -/
theorem quote_conversion_sides (env : Env) (poolAddress tokenIn tokenOut : String)
    (amtIn amtOut feeIn feeOut : Rat) (dIn dOut : Option Nat)
    (bIn bOut : Rat) (rOut rIn : RawSwapValues)
    (hbi : Pool.getMaxSwapExactIn env poolAddress tokenIn = .ok bIn)
    (h1 : ¬ bIn < amtIn)
    (hro : env.calcOutGivenIn poolAddress tokenIn tokenOut
        (amountToUnits env tokenIn amtIn dIn) (toWei feeIn) = .ok rOut)
    (hbo : Pool.getMaxSwapExactOut env poolAddress tokenOut = .ok bOut)
    (h2 : ¬ bOut < amtOut)
    (hri : env.calcInGivenOut poolAddress tokenIn tokenOut
        (amountToUnits env tokenOut amtOut dOut) (toWei feeOut) = .ok rIn) :
    Pool.getAmountOutExactIn env poolAddress tokenIn tokenOut amtIn feeIn dIn dOut =
      .ok (some
        { tokenAmount := unitsToAmount env tokenOut rOut.tokenAmount dOut
          liquidityProviderSwapFeeAmount :=
            unitsToAmount env tokenIn rOut.lpFeeAmount dIn
          oceanFeeAmount := unitsToAmount env tokenIn rOut.oceanFeeAmount dIn
          publishMarketSwapFeeAmount :=
            unitsToAmount env tokenIn rOut.publishMarketSwapFeeAmount dIn
          consumeMarketSwapFeeAmount :=
            unitsToAmount env tokenIn rOut.consumeMarketSwapFeeAmount dIn }) ∧
    Pool.getAmountInExactOut env poolAddress tokenIn tokenOut amtOut feeOut dIn dOut =
      .ok (some
        { tokenAmount := unitsToAmount env tokenOut rIn.tokenAmount dOut
          liquidityProviderSwapFeeAmount :=
            unitsToAmount env tokenIn rIn.lpFeeAmount dIn
          oceanFeeAmount := unitsToAmount env tokenIn rIn.oceanFeeAmount dIn
          publishMarketSwapFeeAmount :=
            unitsToAmount env tokenIn rIn.publishMarketSwapFeeAmount dIn
          consumeMarketSwapFeeAmount :=
            unitsToAmount env tokenIn rIn.consumeMarketSwapFeeAmount dIn }) := by
  constructor
  · unfold Pool.getAmountOutExactIn
    rw [hbi]
    simp [h1, hro]
  · unfold Pool.getAmountInExactOut
    rw [hbo]
    simp [h2, hri]

/-- Witness for `quote_conversion_sides` in `baseEnv` (all decimals 0):
the exact-in quote returns the calculator's gross 50 and fees 1, the
exact-out quote returns gross 100 and fees 0. -/
theorem quote_conversion_sides_witness :
    Pool.getAmountOutExactIn baseEnv "P" "TKI" "TKO" 1 0 none none =
      .ok (some ⟨50, 1, 1, 1, 1⟩) ∧
    Pool.getAmountInExactOut baseEnv "P" "TKI" "TKO" 1 0 none none =
      .ok (some ⟨100, 0, 0, 0, 0⟩) := by
  have h := quote_conversion_sides baseEnv "P" "TKI" "TKO" 1 1 0 0 none none
    500 (1000 / 3) ⟨50, 1, 1, 1, 1⟩ ⟨100, 0, 0, 0, 0⟩
    (by norm_num [Pool.getMaxSwapExactIn, Pool.getReserve, baseEnv, unitsToAmount,
      calcMaxExactIn, Except.map])
    (by norm_num)
    rfl
    (by norm_num [Pool.getMaxSwapExactOut, Pool.getReserve, baseEnv, unitsToAmount,
      calcMaxExactOut, Except.map])
    (by norm_num)
    rfl
  norm_num [unitsToAmount, baseEnv] at h
  exact h

/-- C3 counterexample: with the estimation oracle returning 100,
`setSwapFee` submits with `gas: estGas` — the bare estimate 100, not
the estimate plus the fixed margin (101) — so the claim that every
mutating operation, including `setSwapFee`, submits with
`estimate + 1` fails at this input. -/
theorem setSwapFee_submits_without_margin_cx :
    (Pool.setSwapFee baseEnv "A" "P" 1 false).2 =
      [.estimated "setSwapFee" 100, .submitted "setSwapFee" 100 7] ∧
    calculateEstimatedGas baseEnv "setSwapFee" = 100 ∧ (100 : Nat) ≠ 100 + 1 :=
  ⟨rfl, rfl, by decide⟩

/-- C3 amended: every modeled mutating operation submits with a gas
price read fresh from the fair-gas-price policy, and all of them except
`setSwapFee` submit with gas equal to the estimate plus one;
`setSwapFee` submits with exactly the bare estimate. -/
theorem submission_uses_margin_and_fresh_price (env : Env)
    (address poolAddress account ssAddress datatokenAddress : String)
    (fee : Rat) (m : TokenInOutMarket) (a : AmountsInMaxFee)
    (nd : NftCreateData) (bound : Rat)
    (hb : Pool.getMaxSwapExactIn env poolAddress m.tokenIn = .ok bound)
    (hle : ¬ bound < a.tokenAmountIn)
    (hidx : ¬ env.nftTemplateCount <
      (if nd.templateIndex = 0 then 1 else nd.templateIndex))
    (hact : env.nftTemplateActive
      (if nd.templateIndex = 0 then 1 else nd.templateIndex) = true) :
    (Pool.collectOPC env address poolAddress false).2 =
      [.estimated "collectOPC" (calculateEstimatedGas env "collectOPC"),
       .submitted "collectOPC" (calculateEstimatedGas env "collectOPC" + 1)
         env.fairGasPrice] ∧
    (Pool.swapExactAmountIn env address poolAddress m a false).2 =
      [.estimated "swapExactAmountIn" (calculateEstimatedGas env "swapExactAmountIn"),
       .submitted "swapExactAmountIn"
         (calculateEstimatedGas env "swapExactAmountIn" + 1) env.fairGasPrice] ∧
    (SideStaking.getVesting env account ssAddress datatokenAddress false).2 =
      [.estimated "getVesting" (calculateEstimatedGas env "getVesting"),
       .submitted "getVesting" (calculateEstimatedGas env "getVesting" + 1)
         env.fairGasPrice] ∧
    (NftFactory.createNFT env address nd).2 =
      [.estimated "deployERC721Contract" (NftFactory.estGasCreateNFT env),
       .submitted "deployERC721Contract" (NftFactory.estGasCreateNFT env + 1)
         env.fairGasPrice] ∧
    (Pool.setSwapFee env account poolAddress fee false).2 =
      [.estimated "setSwapFee" (calculateEstimatedGas env "setSwapFee"),
       .submitted "setSwapFee" (calculateEstimatedGas env "setSwapFee")
         env.fairGasPrice] := by
  have hidx0 : (if nd.templateIndex = 0 then 1 else nd.templateIndex) ≠ 0 := by
    split <;> simp_all
  refine ⟨?_, ?_, ?_, ?_, ?_⟩
  · simp only [Pool.collectOPC, Bool.false_eq_true, if_false]
    split <;> rfl
  · simp only [Pool.swapExactAmountIn, hb, hle, if_false, Bool.false_eq_true]
    split <;> rfl
  · simp only [SideStaking.getVesting, Bool.false_eq_true, if_false]
    split <;> rfl
  · simp only [NftFactory.createNFT, hidx, hidx0, hact, if_false,
      Bool.true_eq_false]
    split <;> first | rfl | (split <;> rfl)
  · simp only [Pool.setSwapFee, Bool.false_eq_true, if_false]
    split <;> rfl

/-- Witness for `submission_uses_margin_and_fresh_price` on `baseEnv`
(estimate 100, fair gas price 7). -/
theorem submission_uses_margin_and_fresh_price_witness :
    (Pool.collectOPC baseEnv "A" "P" false).2 =
      [.estimated "collectOPC" 100, .submitted "collectOPC" 101 7] ∧
    (Pool.swapExactAmountIn baseEnv "A" "P" marketW amountsOk false).2 =
      [.estimated "swapExactAmountIn" 100, .submitted "swapExactAmountIn" 101 7] ∧
    (SideStaking.getVesting baseEnv "A" "SS" "DT" false).2 =
      [.estimated "getVesting" 100, .submitted "getVesting" 101 7] ∧
    (NftFactory.createNFT baseEnv "A" ⟨"n", "s", 1, "u", true, "o"⟩).2 =
      [.estimated "deployERC721Contract" 100,
       .submitted "deployERC721Contract" 101 7] ∧
    (Pool.setSwapFee baseEnv "A" "P" 1 false).2 =
      [.estimated "setSwapFee" 100, .submitted "setSwapFee" 100 7] :=
  submission_uses_margin_and_fresh_price baseEnv "A" "P" "A" "SS" "DT" 1
    marketW amountsOk ⟨"n", "s", 1, "u", true, "o"⟩ 500
    (by norm_num [Pool.getMaxSwapExactIn, Pool.getReserve, baseEnv, unitsToAmount,
      calcMaxExactIn, marketW, Except.map])
    (by norm_num [amountsOk]) (by decide) (by decide)

/-- C4: with the estimate-only flag set, each modeled mutating operation
returns the computed gas estimate and stops: the effect trace contains
only the estimation step, so no submission is performed, no on-chain
state change or event occurs, and no receipt is produced. -/
theorem estimate_only_returns_estimate_no_submission (env : Env)
    (address poolAddress account ssAddress datatokenAddress : String)
    (fee : Rat) (m : TokenInOutMarket) (a : AmountsInMaxFee) (bound : Rat)
    (hb : Pool.getMaxSwapExactIn env poolAddress m.tokenIn = .ok bound)
    (hle : ¬ bound < a.tokenAmountIn) :
    Pool.setSwapFee env account poolAddress fee true =
      (.ok (.gasEstimate (calculateEstimatedGas env "setSwapFee")),
       [.estimated "setSwapFee" (calculateEstimatedGas env "setSwapFee")]) ∧
    SideStaking.getVesting env account ssAddress datatokenAddress true =
      (.ok (.gasEstimate (calculateEstimatedGas env "getVesting")),
       [.estimated "getVesting" (calculateEstimatedGas env "getVesting")]) ∧
    Pool.collectOPC env address poolAddress true =
      (.ok (.gasEstimate (calculateEstimatedGas env "collectOPC")),
       [.estimated "collectOPC" (calculateEstimatedGas env "collectOPC")]) ∧
    Pool.swapExactAmountIn env address poolAddress m a true =
      (.ok (.gasEstimate (calculateEstimatedGas env "swapExactAmountIn")),
       [.estimated "swapExactAmountIn"
          (calculateEstimatedGas env "swapExactAmountIn")]) := by
  refine ⟨rfl, rfl, rfl, ?_⟩
  simp only [Pool.swapExactAmountIn, hb, hle, if_false, if_true]

/-- Witness for `estimate_only_returns_estimate_no_submission` on
`baseEnv` (estimate 100). -/
theorem estimate_only_witness :
    Pool.setSwapFee baseEnv "A" "P" 1 true =
      (.ok (.gasEstimate 100), [.estimated "setSwapFee" 100]) ∧
    SideStaking.getVesting baseEnv "A" "SS" "DT" true =
      (.ok (.gasEstimate 100), [.estimated "getVesting" 100]) ∧
    Pool.collectOPC baseEnv "A" "P" true =
      (.ok (.gasEstimate 100), [.estimated "collectOPC" 100]) ∧
    Pool.swapExactAmountIn baseEnv "A" "P" marketW amountsOk true =
      (.ok (.gasEstimate 100), [.estimated "swapExactAmountIn" 100]) :=
  estimate_only_returns_estimate_no_submission baseEnv "A" "P" "A" "SS" "DT" 1
    marketW amountsOk 500
    (by norm_num [Pool.getMaxSwapExactIn, Pool.getReserve, baseEnv, unitsToAmount,
      calcMaxExactIn, marketW, Except.map])
    (by norm_num [amountsOk])

/-- C5: when raw gas estimation throws, `estGasCreateNFT` does not
abort: it falls back to the configured `GASLIMIT_DEFAULT = 1000000` as
the estimate, and `createNFT` proceeds to submission using that default
(with the usual `+ 1` margin). -/
theorem estimation_failure_falls_back_to_default (env : Env)
    (address : String) (nd : NftCreateData) (msg : String)
    (hfail : env.estimateGasRaw "deployERC721Contract" = .error msg)
    (hidx : ¬ env.nftTemplateCount <
      (if nd.templateIndex = 0 then 1 else nd.templateIndex))
    (hact : env.nftTemplateActive
      (if nd.templateIndex = 0 then 1 else nd.templateIndex) = true) :
    NftFactory.GASLIMIT_DEFAULT = 1000000 ∧
    NftFactory.estGasCreateNFT env = 1000000 ∧
    (NftFactory.createNFT env address nd).2 =
      [.estimated "deployERC721Contract" 1000000,
       .submitted "deployERC721Contract" (1000000 + 1) env.fairGasPrice] := by
  have hest : NftFactory.estGasCreateNFT env = 1000000 := by
    simp [NftFactory.estGasCreateNFT, hfail, NftFactory.GASLIMIT_DEFAULT]
  have hidx0 : (if nd.templateIndex = 0 then 1 else nd.templateIndex) ≠ 0 := by
    split <;> simp_all
  refine ⟨rfl, hest, ?_⟩
  simp only [NftFactory.createNFT, hidx, hidx0, hact, if_false,
    Bool.true_eq_false, hest]
  split <;> first | rfl | (split <;> rfl)

/-- Witness for `estimation_failure_falls_back_to_default` on
`envEstFail`, whose estimator always throws. -/
theorem estimation_failure_falls_back_witness :
    NftFactory.GASLIMIT_DEFAULT = 1000000 ∧
    NftFactory.estGasCreateNFT envEstFail = 1000000 ∧
    (NftFactory.createNFT envEstFail "A" ⟨"n", "s", 1, "u", true, "o"⟩).2 =
      [.estimated "deployERC721Contract" 1000000,
       .submitted "deployERC721Contract" (1000000 + 1) 7] :=
  estimation_failure_falls_back_to_default envEstFail "A"
    ⟨"n", "s", 1, "u", true, "o"⟩ "cannot estimate" rfl (by decide) (by decide)

/-- C6 counterexample: with every submission rejected by the chain,
`swapExactAmountIn` and `setSwapFee` do not propagate the revert reason:
the catch block logs it and the call returns the JavaScript `null`
receipt — exactly the generic null return the claim rules out. -/
theorem revert_swallowed_into_null_cx :
    (Pool.swapExactAmountIn envRevert "A" "P" marketW amountsOk false).1 =
      .ok (.receipt none) ∧
    (Pool.setSwapFee envRevert "A" "P" 1 false).1 = .ok (.receipt none) := by
  constructor
  · norm_num [Pool.swapExactAmountIn, Pool.getMaxSwapExactIn, Pool.getReserve,
      envRevert, baseEnv, unitsToAmount, calcMaxExactIn, marketW, amountsOk,
      Except.map]
  · rfl

/-- C6 amended: when the chain rejects the submission of
`swapExactAmountIn` or `setSwapFee`, the failure is caught and logged
and the call returns null (not a propagated error carrying the revert
reason), and the pipeline does not retry: the effect trace shows exactly
one submission attempt. -/
theorem revert_logged_null_no_retry (env : Env)
    (address poolAddress account : String) (fee : Rat)
    (m : TokenInOutMarket) (a : AmountsInMaxFee) (bound : Rat) (reason : String)
    (hb : Pool.getMaxSwapExactIn env poolAddress m.tokenIn = .ok bound)
    (hle : ¬ bound < a.tokenAmountIn)
    (hsend : ∀ meth args g p, env.send meth args g p = .error reason) :
    Pool.swapExactAmountIn env address poolAddress m a false =
      (.ok (.receipt none),
       [.estimated "swapExactAmountIn" (calculateEstimatedGas env "swapExactAmountIn"),
        .submitted "swapExactAmountIn"
          (calculateEstimatedGas env "swapExactAmountIn" + 1) env.fairGasPrice]) ∧
    Pool.setSwapFee env account poolAddress fee false =
      (.ok (.receipt none),
       [.estimated "setSwapFee" (calculateEstimatedGas env "setSwapFee"),
        .submitted "setSwapFee" (calculateEstimatedGas env "setSwapFee")
          env.fairGasPrice]) := by
  constructor
  · simp only [Pool.swapExactAmountIn, hb, hle, if_false, Bool.false_eq_true, hsend]
  · simp only [Pool.setSwapFee, Bool.false_eq_true, if_false, hsend]

/-- Witness for `revert_logged_null_no_retry` on `envRevert`. -/
theorem revert_logged_null_no_retry_witness :
    Pool.swapExactAmountIn envRevert "A" "P" marketW amountsOk false =
      (.ok (.receipt none),
       [.estimated "swapExactAmountIn" 100, .submitted "swapExactAmountIn" 101 7]) ∧
    Pool.setSwapFee envRevert "A" "P" 1 false =
      (.ok (.receipt none),
       [.estimated "setSwapFee" 100, .submitted "setSwapFee" 100 7]) :=
  revert_logged_null_no_retry envRevert "A" "P" "A" 1 marketW amountsOk 500
    "execution reverted"
    (by norm_num [Pool.getMaxSwapExactIn, Pool.getReserve, envRevert, baseEnv,
      unitsToAmount, calcMaxExactIn, marketW, Except.map])
    (by norm_num [amountsOk])
    (fun _ _ _ _ => rfl)

/-- C7 counterexample: when the underlying contract read fails,
`getNumTokens` and `sharesBalance` return the JavaScript `null` instead
of failing with a typed error carrying the cause, and `getReserve`
raises a TypeError from calling `toString` on null — none of the three
accessors surfaces a typed `QueryFailed` error. -/
theorem query_failure_returns_null_cx :
    Pool.getNumTokens envReadFail "P" = .ok none ∧
    Pool.sharesBalance envReadFail "A" "P" = .ok none ∧
    Pool.getReserve envReadFail "P" "T" none = .error .nullDeref :=
  ⟨rfl, rfl, rfl⟩

/-- C7 amended: when the underlying contract read fails, `getNumTokens`
and `sharesBalance` catch the failure, log it, and return null (a value
indistinguishable from a missing result), while `getReserve` crashes
with a TypeError from calling `toString` on the null amount; only a
successful read produces a value. -/
theorem query_failure_behavior (env : Env)
    (poolAddress account token : String) (tokenDecimals : Option Nat)
    (m1 m2 m3 : String)
    (h1 : env.numTokens poolAddress = .error m1)
    (h2 : env.balanceOf poolAddress account = .error m2)
    (h3 : env.getBalance poolAddress token = .error m3) :
    Pool.getNumTokens env poolAddress = .ok none ∧
    Pool.sharesBalance env account poolAddress = .ok none ∧
    Pool.getReserve env poolAddress token tokenDecimals = .error .nullDeref := by
  refine ⟨?_, ?_, ?_⟩ <;>
    simp only [Pool.getNumTokens, Pool.sharesBalance, Pool.getReserve, h1, h2, h3]

/-- Witness for `query_failure_behavior` on `envReadFail`. -/
theorem query_failure_behavior_witness :
    Pool.getNumTokens envReadFail "Q" = .ok none ∧
    Pool.sharesBalance envReadFail "B" "Q" = .ok none ∧
    Pool.getReserve envReadFail "Q" "U" none = .error .nullDeref :=
  query_failure_behavior envReadFail "Q" "B" "U" none
    "read failed" "read failed" "read failed" rfl rfl rfl

/-- C8 counterexample: with the on-chain collector "COLLECTOR" and
factory owner "OWNER", a call from "X" is rejected CLIENT-side before
any estimation or submission (empty effect trace), based on the
client's own role query — contradicting the claim that role
requirements are not re-validated client-side and that a denial
surfaces only as a pass-through of the contract's rejection. -/
theorem role_checked_client_side_cx :
    Pool.collectMarketFee baseEnv "X" "P" false =
      (.error .notMarketFeeCollector, []) ∧
    Pool.updatePublishMarketFee baseEnv "X" "P" "N" 1 false =
      (.error .notMarketFeeCollector, []) ∧
    NftFactory.addNFTTemplate baseEnv "X" "T" =
      (.error .notFactoryOwner, []) :=
  ⟨rfl, rfl, rfl⟩

/-- C8 amended: `collectMarketFee` and `updatePublishMarketFee`
re-validate the publish-market collector role client-side, and
`addNFTTemplate` re-validates factory ownership client-side: whenever
the caller does not match the queried role holder, the call throws a
client-side error with an empty effect trace, before any estimation or
submission reaches the contract. -/
theorem role_revalidated_client_side (env : Env)
    (address poolAddress newAddress templateAddress : String)
    (fee : Rat) (g : Bool)
    (hcol : Pool.getMarketFeeCollector env poolAddress ≠ some address)
    (hown : env.nftOwner ≠ address) :
    Pool.collectMarketFee env address poolAddress g =
      (.error .notMarketFeeCollector, []) ∧
    Pool.updatePublishMarketFee env address poolAddress newAddress fee g =
      (.error .notMarketFeeCollector, []) ∧
    NftFactory.addNFTTemplate env address templateAddress =
      (.error .notFactoryOwner, []) := by
  refine ⟨?_, ?_, ?_⟩
  · unfold Pool.collectMarketFee
    rw [if_pos hcol]
  · unfold Pool.updatePublishMarketFee
    rw [if_pos hcol]
  · unfold NftFactory.addNFTTemplate
    rw [if_pos hown]

/-- Witness for `role_revalidated_client_side` on `baseEnv` with the
mismatching caller "X". -/
theorem role_revalidated_client_side_witness :
    Pool.collectMarketFee baseEnv "X" "Q" true =
      (.error .notMarketFeeCollector, []) ∧
    Pool.updatePublishMarketFee baseEnv "X" "Q" "N" 1 true =
      (.error .notMarketFeeCollector, []) ∧
    NftFactory.addNFTTemplate baseEnv "X" "U" =
      (.error .notFactoryOwner, []) :=
  role_revalidated_client_side baseEnv "X" "Q" "N" "U" 1 true
    (by decide) (by decide)

/-- C9 counterexample: with 2-decimal tokens and a raw contract balance
of 500 units, `SideStaking.getDatatokenBalance` converts and returns the
human-readable 5, but `SideStaking.getBasetokenBalance` returns the raw
fixed-point 500 unconverted — a raw integer amount crossing the public
boundary. -/
theorem raw_fixed_point_crosses_boundary_cx :
    SideStaking.getBasetokenBalance envDec2 "SS" "DT" = .ok 500 ∧
    SideStaking.getDatatokenBalance envDec2 "SS" "DT" none = .ok 5 ∧
    (500 : Rat) ≠ 5 := by
  refine ⟨?_, ?_, by norm_num⟩
  · norm_num [SideStaking.getBasetokenBalance, envDec2, baseEnv, Except.map]
  · norm_num [SideStaking.getDatatokenBalance, envDec2, baseEnv, unitsToAmount,
      Except.map]

/-- C9 amended: `Pool.getReserve` and `SideStaking.getDatatokenBalance`
convert the raw fixed-point amount via the unit converter before
returning it, but `SideStaking.getBasetokenBalance` returns the raw
fixed-point integer unconverted across the component boundary. -/
theorem boundary_conversion_mixed (env : Env)
    (ssAddress datatokenAddress poolAddress token : String)
    (d : Option Nat) (b1 b2 b3 : Nat)
    (h1 : env.ssBaseTokenBalance ssAddress datatokenAddress = .ok b1)
    (h2 : env.ssDatatokenBalance ssAddress datatokenAddress = .ok b2)
    (h3 : env.getBalance poolAddress token = .ok b3) :
    SideStaking.getBasetokenBalance env ssAddress datatokenAddress =
      .ok (b1 : Rat) ∧
    SideStaking.getDatatokenBalance env ssAddress datatokenAddress d =
      .ok (unitsToAmount env datatokenAddress b2 d) ∧
    Pool.getReserve env poolAddress token d =
      .ok (unitsToAmount env token b3 d) := by
  refine ⟨?_, ?_, ?_⟩
  · unfold SideStaking.getBasetokenBalance
    rw [h1]
    rfl
  · unfold SideStaking.getDatatokenBalance
    rw [h2]
    rfl
  · unfold Pool.getReserve
    rw [h3]

/-- Witness for `boundary_conversion_mixed` on `envDec2`. -/
theorem boundary_conversion_mixed_witness :
    SideStaking.getBasetokenBalance envDec2 "SS" "DT" = .ok ((500 : Nat) : Rat) ∧
    SideStaking.getDatatokenBalance envDec2 "SS" "DT" none =
      .ok (unitsToAmount envDec2 "DT" 500 none) ∧
    Pool.getReserve envDec2 "P" "T" none =
      .ok (unitsToAmount envDec2 "T" 1000 none) :=
  boundary_conversion_mixed envDec2 "SS" "DT" "P" "T" none 500 500 1000
    rfl rfl rfl

end OceanPools
